import Mathlib

/-! Verification of the Nexgen BPO voice-agent backend (`src/main.py`).

Shallow embedding.  Python string primitives are modelled on `List Char`
(`String.data`); `str.lower()` is modelled on the ASCII range (the range the
code exercises through `VOICE_*` environment keys).  The external providers
(OpenAI ASR/LLM, ElevenLabs TTS) are modelled by oracle parameters that say
what the network call would have done: returned a value, or raised an
exception with a given message.  The `submissions.json` file is modelled at
the parsed level: either a well-formed JSON array of contact records or
unparseable content carrying the message that `json.load` would raise with;
host-filesystem failures during one request are an explicit oracle as well.
-/

/-- Model of Python `str.lower()` (ASCII letters, via `Char.toLower`). -/
def pyLower (s : String) : String := ⟨s.data.map Char.toLower⟩

/-- Model of Python `s.startswith(pre)`. -/
def pyStartsWith (s pre : String) : Bool := pre.data.isPrefixOf s.data

/-- Model of Python `'-' in s`. -/
def pyContainsDash (s : String) : Bool := s.data.contains '-'

/-- Model of Python `s.split('-')[0]`: the characters before the first dash. -/
def pySplitFirst (s : String) : String := ⟨s.data.takeWhile (fun c => c != '-')⟩

/-- Model of Python `s.strip()`. -/
def pyStrip (s : String) : String := s.trim

/-- Does the string contain an ASCII uppercase letter? -/
def hasUpperStr (s : String) : Bool := s.data.any Char.isUpper

/-- The environment-derived configuration read at module import
(`main.py` lines 29-34), plus the voice map built once by `_load_voice_map`
(line 63).  The map is a lookup function: `none` means the key is absent. -/
structure Config where
  OPENAI_API_KEY : String
  OPENAI_MODEL : String
  ELEVENLABS_API_KEY : String
  ELEVENLABS_VOICE_DEFAULT : String
  voiceMap : String → Option String

/-- Embedding of `_load_voice_map` (`main.py` lines 54-61): keep the environment entries
whose key starts with `VOICE_` and whose value is truthy (non-empty), keyed by
`k.split("_", 1)[1]` — for a key starting with `VOICE_` this is the suffix
after the first underscore, i.e. the characters after `VOICE_`, case kept. -/
def _load_voice_map (env : List (String × String)) : List (String × String) :=
  env.filterMap fun kv =>
    if pyStartsWith kv.1 "VOICE_" && kv.2 != "" then
      some (⟨kv.1.data.drop 6⟩, kv.2)
    else
      none

/-- Dictionary lookup in the loaded voice map (environment keys are unique,
so first match is the dict entry). -/
def voiceMapOf (env : List (String × String)) : String → Option String :=
  fun s => (_load_voice_map env).lookup s

/-- Embedding of `choose_voice_for_language` (`main.py` lines 65-74). -/
def choose_voice_for_language (vm : String → Option String) (dflt : String)
    (lang : String) : String :=
  if lang = "" then dflt
  else
    match vm lang with
    | some v => v
    | none =>
      if pyContainsDash lang then
        match vm (pySplitFirst lang) with
        | some v => v
        | none => dflt
      else dflt

/-- Outcome of one ASR or LLM provider call, as the Python code sees it: the
string the code would extract on success (`resp.get("text", "")`, resp. the
stripped completion content), or the `str(e)` of the exception the `try`
block would catch. -/
inductive ProviderOutcome where
  | ok (text : String)
  | raise (msg : String)

/-- Embedding of `run_asr_local` (`main.py` lines 77-85). -/
def run_asr_local (cfg : Config) (language : String) (net : ProviderOutcome) :
    String :=
  if cfg.OPENAI_API_KEY = "" then "[ASR not configured - set OPENAI_API_KEY]"
  else
    match net with
    | .ok text => text
    | .raise e => "[ASR error: " ++ e ++ "]"

/-- Embedding of `run_llm_local` (`main.py` lines 87-101); on success the code returns the
completion content `.strip()`-ed. -/
def run_llm_local (cfg : Config) (language : String) (net : ProviderOutcome) :
    String :=
  if cfg.OPENAI_API_KEY = "" then "[LLM not configured - set OPENAI_API_KEY]"
  else
    match net with
    | .ok text => pyStrip text
    | .raise e => "[LLM error: " ++ e ++ "]"

/-- Outcome of the ElevenLabs POST: an HTTP response with a status code and
the streamed body chunks (bytes), or a raised exception. -/
inductive TTSNet where
  | response (status : Nat) (chunks : List (List Nat))
  | raise (msg : String)

/-- Behavior of the local file write of the streamed body: every chunk write
succeeds, or a write raises after `n` chunks were already written. -/
inductive WriteBehavior where
  | ok
  | failAfter (n : Nat) (msg : String)

/-- What one `run_tts_elevenlabs` call did: the returned boolean, the bytes
it wrote to `out_path` (`none` when it never opened the file), and whether it
attempted the network request at all. -/
structure TTSResult where
  ok : Bool
  written : Option (List Nat)
  attemptedNet : Bool
  deriving DecidableEq

/-- Embedding of `run_tts_elevenlabs` (`main.py` lines 103-123).  The `for chunk in
r.iter_content` loop skips falsy (empty) chunks. -/
def run_tts_elevenlabs (cfg : Config) (text voice : String) (net : TTSNet)
    (wr : WriteBehavior) : TTSResult :=
  if cfg.ELEVENLABS_API_KEY = "" then ⟨false, none, false⟩
  else
    match net with
    | .raise _ => ⟨false, none, true⟩
    | .response status chunks =>
      if status = 200 then
        match wr with
        | .ok => ⟨true, some ((chunks.filter (fun c => c != [])).flatten), true⟩
        | .failAfter n _ =>
          ⟨false, some (((chunks.filter (fun c => c != [])).take n).flatten), true⟩
      else ⟨false, none, true⟩

/-- The JSON body returned by `/voice-agent` (`main.py` line 152). -/
structure VoiceAgentResult where
  transcript : String
  response_text : String
  tts_audio_url : Option String
  deriving DecidableEq

/-- Embedding of `lang = (language or "en").lower()` (`main.py` line 132), with the
FastAPI form default `"en"`; `language or "en"` replaces both a missing and
an empty value by `"en"`. -/
def normalized_lang (language : Option String) : String :=
  pyLower (match language with
    | none => "en"
    | some l => if l = "" then "en" else l)

/-- Embedding of the output filename (`main.py` line 142),
with the random hex token as a parameter. -/
def out_filename (uuidHex : String) : String :=
  "generated_" ++ uuidHex ++ ".mp3"

/-- All intermediate values of one `/voice-agent` request, so that theorems
can speak about the chosen voice and the TTS call, not only the response. -/
structure VoiceAgentTrace where
  lang : String
  transcript : String
  response_text : String
  chosen_voice : String
  tts : TTSResult
  result : VoiceAgentResult

/-- Embedding of the `/voice-agent` handler (`main.py` lines 125-152).  The temp-file
round trip is exact (written then read back by ASR) and its best-effort
deletion has no observable effect, so neither appears; the three provider
calls take their oracles.  Returned with all intermediates. -/
def voice_agent_trace (cfg : Config) (language : Option String)
    (asrNet llmNet : ProviderOutcome) (ttsNet : TTSNet) (wr : WriteBehavior)
    (uuidHex : String) : VoiceAgentTrace :=
  let lang := normalized_lang language
  let transcript := run_asr_local cfg lang asrNet
  let llm_response :=
    if transcript != "" && !(pyStartsWith transcript "[ASR error")
        && !(pyStartsWith transcript "[ASR not configured") then
      run_llm_local cfg lang llmNet
    else
      "[LLM unavailable due to ASR error or missing config]"
  let chosen_voice :=
    choose_voice_for_language cfg.voiceMap cfg.ELEVENLABS_VOICE_DEFAULT lang
  let tts := run_tts_elevenlabs cfg llm_response chosen_voice ttsNet wr
  let tts_url := if tts.ok then some ("/static/" ++ out_filename uuidHex) else none
  ⟨lang, transcript, llm_response, chosen_voice, tts,
    ⟨transcript, llm_response, tts_url⟩⟩

/-- Response body of `/voice-agent`. -/
def voice_agent (cfg : Config) (language : Option String)
    (asrNet llmNet : ProviderOutcome) (ttsNet : TTSNet) (wr : WriteBehavior)
    (uuidHex : String) : VoiceAgentResult :=
  (voice_agent_trace cfg language asrNet llmNet ttsNet wr uuidHex).result

/-- Behavior of the host filesystem while the handler persists the uploaded
audio to the temporary file (`main.py` lines 129-130): the open and write
succeed, or one of them raises with the given message. -/
inductive TmpFS where
  | ok
  | fail (msg : String)
  deriving DecidableEq

/-- Full response of `/voice-agent`.  The temp-file write at `main.py`
lines 129-130 runs outside any `try`, so its exception escapes the handler
and the framework answers 500 (the constructor records the raised message;
the 500 body itself is the framework's generic one); otherwise the handler
finishes and returns the JSON body, a `JSONResponse` with no status
argument, the framework default 200. -/
inductive VoiceAgentResponse where
  | ok200 (body : VoiceAgentResult)
  | err500 (raisedMsg : String)
  deriving DecidableEq

/-- The `/voice-agent` endpoint including its uncaught temp-file error
path. -/
def voice_agent_endpoint (tmpfs : TmpFS) (cfg : Config)
    (language : Option String) (asrNet llmNet : ProviderOutcome)
    (ttsNet : TTSNet) (wr : WriteBehavior) (uuidHex : String) :
    VoiceAgentResponse :=
  match tmpfs with
  | .fail msg => .err500 msg
  | .ok => .ok200 (voice_agent cfg language asrNet llmNet ttsNet wr uuidHex)

/-- HTTP status carried by a `/voice-agent` response. -/
def voice_agent_endpoint_status : VoiceAgentResponse → Nat
  | .ok200 _ => 200
  | .err500 _ => 500

/-- One contact record as stored by `/contact` (`main.py` line 156);
`plan` and `message` are `null` when the form fields are absent. -/
structure Contact where
  name : String
  email : String
  plan : Option String
  message : Option String
  deriving DecidableEq

/-- The state of `submissions.json` at the parsed level: a well-formed JSON
array of contact records, or content on which `json.load` raises an
exception whose `str` is the given message. -/
inductive FileContent where
  | parsed (entries : List Contact)
  | corrupt (errMsg : String)
  deriving DecidableEq

/-- Behavior of the host filesystem during one `contact_submit` call:
everything succeeds, the `open` raises, or a write during `json.dump`
raises after leaving the given content behind. -/
inductive StoreFS where
  | ok
  | openFail (msg : String)
  | writeFail (msg : String) (leftover : FileContent)
  deriving DecidableEq

/-- The response of `/contact`: the 200 JSON body on success, or the
`HTTPException(status_code=500, detail=str(e))` raised on failure. -/
inductive ContactResponse where
  | ok200 (statusField : String) (detail : String)
  | err500 (detail : String)
  deriving DecidableEq

/-- HTTP status carried by a `/contact` response. -/
def contact_http_status : ContactResponse → Nat
  | .ok200 _ _ => 200
  | .err500 _ => 500

/-- Embedding of the `/contact` handler (`main.py` lines 154-165): open `r+` (may raise),
`json.load` (raises on corrupt content, leaving the file untouched), append
the entry, seek 0 and `json.dump` (a write failure leaves whatever content
the interrupted dump produced); any exception becomes a 500 whose detail is
the exception message. -/
def contact_submit (fs : StoreFS) (file : FileContent) (entry : Contact) :
    FileContent × ContactResponse :=
  match fs with
  | .openFail msg => (file, .err500 msg)
  | .ok =>
    match file with
    | .corrupt msg => (file, .err500 msg)
    | .parsed data =>
      (.parsed (data ++ [entry]), .ok200 "ok" "Submission received")
  | .writeFail msg leftover =>
    match file with
    | .corrupt pmsg => (file, .err500 pmsg)
    | .parsed _ => (leftover, .err500 msg)

/-! ## Helper lemmas -/

theorem char_toNat_ofNat_valid {n : Nat} (h : n.isValidChar) :
    (Char.ofNat n).toNat = n := by
  rw [Char.ofNat, dif_pos h]
  rfl

theorem char_isUpper_iff_toNat (c : Char) :
    c.isUpper = true ↔ (65 ≤ c.toNat ∧ c.toNat ≤ 90) := by
  simp [Char.isUpper, UInt32.le_def, BitVec.le_def, Char.toNat, UInt32.toNat]

theorem char_toLower_not_upper (c : Char) : (Char.toLower c).isUpper = false := by
  by_cases h : 65 ≤ c.toNat ∧ c.toNat ≤ 90
  case pos =>
    have hv : (c.toNat + 32).isValidChar := Or.inl (by omega)
    have ht := char_toNat_ofNat_valid hv
    simp only [Char.toLower, ge_iff_le]
    rw [if_pos h, Bool.eq_false_iff]
    intro hu
    rw [char_isUpper_iff_toNat] at hu
    omega
  case neg =>
    simp only [Char.toLower, ge_iff_le]
    rw [if_neg h, Bool.eq_false_iff]
    intro hu
    rw [char_isUpper_iff_toNat] at hu
    exact h hu

theorem takeWhile_append_of_all {α : Type} (p : α → Bool) (l1 l2 : List α)
    (h : ∀ a ∈ l1, p a = true) :
    (l1 ++ l2).takeWhile p = l1 ++ l2.takeWhile p := by
  induction l1 with
  | nil => simp
  | cons a l ih =>
    simp only [List.cons_append, List.takeWhile_cons, h a (by simp)]
    rw [ih (fun x hx => h x (by simp [hx]))]
    simp

/-! ## Claim C2 -/

/-- Claim C2: `submit_contact` appends exactly one record per call and
preserves all previously stored records in order; two sequential submissions
to the empty store yield exactly `[e1, e2]`; and submitting
`{name: "Ana", email: "a@x.com"}` with no plan and no message to an empty
store yields exactly the one-element stored array with `plan` and `message`
null. -/
theorem C2_contact_append (l : List Contact) (e1 e2 : Contact) :
    contact_submit .ok (.parsed l) e1
      = (.parsed (l ++ [e1]), .ok200 "ok" "Submission received")
    ∧ (contact_submit .ok ((contact_submit .ok (.parsed []) e1).1) e2).1
      = .parsed [e1, e2]
    ∧ (contact_submit .ok (.parsed []) ⟨"Ana", "a@x.com", none, none⟩).1
      = .parsed [⟨"Ana", "a@x.com", none, none⟩] :=
  ⟨rfl, rfl, rfl⟩

/-! ## Claim C5 -/

/-- Claim C5: voice selection returns the default voice identifier in every
fallback case: empty tag; tag absent from the map with no separator; tag
absent from the map whose first-separator prefix is also absent. -/
theorem C5_fallback_default (vm : String → Option String) (dflt lang : String) :
    (lang = "" → choose_voice_for_language vm dflt lang = dflt)
    ∧ (vm lang = none → pyContainsDash lang = false →
        choose_voice_for_language vm dflt lang = dflt)
    ∧ (vm lang = none → pyContainsDash lang = true →
        vm (pySplitFirst lang) = none →
        choose_voice_for_language vm dflt lang = dflt) := by
  unfold choose_voice_for_language
  refine ⟨fun h => by simp [h], fun h1 h2 => ?_, fun h1 h2 h3 => ?_⟩
  · by_cases he : lang = ""
    · simp [he]
    · simp [he, h1, h2]
  · by_cases he : lang = ""
    · simp [he]
    · simp [he, h1, h2, h3]

/-- Witness for C5 at concrete inputs: the empty map with default `Bella`
on the tags `""`, `"xx"` and `"xx-aa"`. -/
theorem C5_fallback_default_witness :
    choose_voice_for_language (fun _ => none) "Bella" "" = "Bella"
    ∧ choose_voice_for_language (fun _ => none) "Bella" "xx" = "Bella"
    ∧ choose_voice_for_language (fun _ => none) "Bella" "xx-aa" = "Bella" :=
  ⟨(C5_fallback_default (fun _ => none) "Bella" "").1 rfl,
   (C5_fallback_default (fun _ => none) "Bella" "xx").2.1 rfl (by decide),
   (C5_fallback_default (fun _ => none) "Bella" "xx-aa").2.2 rfl (by decide) rfl⟩

/-! ## Claim C3 -/

/-- Environment for the C3 counterexample: the single variable `VOICE_`
(whose language suffix is the empty string) with value `alpha`. -/
def c3Env : List (String × String) := [("VOICE_", "alpha")]

/-- Claim C3 counterexample: the empty tag exactly matches the VoiceMap key
`""` (loadable from the environment variable `VOICE_`), yet voice selection
returns the default `Bella`, not the mapped value `alpha`: the `if not lang`
guard runs before the exact-match lookup. -/
theorem C3_counterexample :
    voiceMapOf c3Env "" = some "alpha"
    ∧ choose_voice_for_language (voiceMapOf c3Env) "Bella" "" = "Bella"
    ∧ ("Bella" : String) ≠ "alpha" := by
  refine ⟨by decide, by decide, by decide⟩

/-- Claim C3 (amended: the tag must be non-empty): for every non-empty
language tag that exactly matches a VoiceMap key, voice selection returns the
value mapped to that exact key, even when the tag contains a separator whose
prefix is also a VoiceMap key. -/
theorem C3_exact_match_priority (vm : String → Option String)
    (dflt lang v : String) (hne : lang ≠ "") (h : vm lang = some v) :
    choose_voice_for_language vm dflt lang = v := by
  unfold choose_voice_for_language
  simp [hne, h]

/-- Environment for the C3 witness: both `en-us` and its separator prefix
`en` are keys, and the exact match wins. -/
def c3wEnv : List (String × String) :=
  [("VOICE_en-us", "VoiceExact"), ("VOICE_en", "VoicePrefix")]

/-- Witness for C3 at concrete inputs. -/
theorem C3_exact_match_priority_witness :
    ("en-us" : String) ≠ ""
    ∧ voiceMapOf c3wEnv "en-us" = some "VoiceExact"
    ∧ voiceMapOf c3wEnv "en" = some "VoicePrefix"
    ∧ choose_voice_for_language (voiceMapOf c3wEnv) "Bella" "en-us"
      = "VoiceExact" :=
  ⟨by decide, by decide, by decide,
   C3_exact_match_priority (voiceMapOf c3wEnv) "Bella" "en-us" "VoiceExact"
     (by decide) (by decide)⟩

/-! ## Claim C4 -/

/-- Environment for the C4 counterexample: both the full tag `en-us` and its
prefix `en` are VoiceMap keys. -/
def c4Env : List (String × String) :=
  [("VOICE_en-us", "VoiceFull"), ("VOICE_en", "VoiceShort")]

/-- Claim C4 counterexample: `en-us` has the form `xx-YY` with `xx = en` a
VoiceMap key, but voice selection returns the exact match `VoiceFull`, not
`VoiceMap["en"] = VoiceShort`. -/
theorem C4_counterexample :
    voiceMapOf c4Env "en" = some "VoiceShort"
    ∧ choose_voice_for_language (voiceMapOf c4Env) "Bella" "en-us"
      = "VoiceFull"
    ∧ ("VoiceFull" : String) ≠ "VoiceShort" := by
  refine ⟨by decide, by decide, by decide⟩

/-- Claim C4 (amended: the full tag must not itself be a VoiceMap key): for
every language tag of the form `xx-YY` where `xx` (separator-free) is a
VoiceMap key and the full tag is not, voice selection returns
`VoiceMap["xx"]`. -/
theorem C4_prefix_match (vm : String → Option String) (dflt xx yy v : String)
    (hxx : pyContainsDash xx = false)
    (hfull : vm (xx ++ "-" ++ yy) = none)
    (h : vm xx = some v) :
    choose_voice_for_language vm dflt (xx ++ "-" ++ yy) = v := by
  have hdata : (xx ++ "-" ++ yy).data = xx.data ++ '-' :: yy.data := by
    simp [String.data_append]
  have hmem : '-' ∉ xx.data := by
    intro hm
    have hc : xx.data.contains '-' = true :=
      List.contains_iff_exists_mem_beq.mpr ⟨'-', hm, by simp⟩
    simp only [pyContainsDash] at hxx
    rw [hc] at hxx
    exact Bool.noConfusion hxx
  have hne : xx ++ "-" ++ yy ≠ "" := by
    intro he
    have : (xx ++ "-" ++ yy).data = [] := by rw [he]
    rw [hdata] at this
    simp at this
  have hcont : pyContainsDash (xx ++ "-" ++ yy) = true := by
    simp only [pyContainsDash, hdata]
    exact List.contains_iff_exists_mem_beq.mpr ⟨'-', by simp, by simp⟩
  have hsplit : pySplitFirst (xx ++ "-" ++ yy) = xx := by
    rw [pySplitFirst, hdata,
      takeWhile_append_of_all _ xx.data ('-' :: yy.data)
        (fun a ha => by
          rw [bne_iff_ne]
          intro hcEq
          exact hmem (hcEq ▸ ha))]
    simp [List.takeWhile_cons]
  unfold choose_voice_for_language
  simp [hne, hfull, hcont, hsplit, h]

/-- Environment for the C4 witness: only the prefix `en` is a key. -/
def c4wEnv : List (String × String) := [("VOICE_en", "VoiceShort")]

/-- Witness for C4 at concrete inputs. -/
theorem C4_prefix_match_witness :
    pyContainsDash "en" = false
    ∧ voiceMapOf c4wEnv ("en" ++ "-" ++ "us") = none
    ∧ voiceMapOf c4wEnv "en" = some "VoiceShort"
    ∧ choose_voice_for_language (voiceMapOf c4wEnv) "Bella" ("en" ++ "-" ++ "us")
      = "VoiceShort" :=
  ⟨by decide, by decide, by decide,
   C4_prefix_match (voiceMapOf c4wEnv) "Bella" "en" "us" "VoiceShort"
     (by decide) (by decide) (by decide)⟩

/-! ## Claim C1 -/

/-- Claim C1: if ASR credentials are absent (`OPENAI_API_KEY` empty), the
`/voice-agent` response has transcript equal to the fixed "ASR not
configured" sentinel and response_text equal to the fixed "LLM unavailable"
sentinel, for every behavior of the LLM provider (the LLM adapter is
skipped). -/
theorem C1_asr_missing_credentials (cfg : Config) (language : Option String)
    (asrNet llmNet : ProviderOutcome) (ttsNet : TTSNet) (wr : WriteBehavior)
    (uuidHex : String) (h : cfg.OPENAI_API_KEY = "") :
    (voice_agent cfg language asrNet llmNet ttsNet wr uuidHex).transcript
      = "[ASR not configured - set OPENAI_API_KEY]"
    ∧ (voice_agent cfg language asrNet llmNet ttsNet wr uuidHex).response_text
      = "[LLM unavailable due to ASR error or missing config]" := by
  have hasr : run_asr_local cfg (normalized_lang language) asrNet
      = "[ASR not configured - set OPENAI_API_KEY]" := by
    unfold run_asr_local
    rw [if_pos h]
  have hcond : ("[ASR not configured - set OPENAI_API_KEY]" != ""
      && !(pyStartsWith "[ASR not configured - set OPENAI_API_KEY]" "[ASR error")
      && !(pyStartsWith "[ASR not configured - set OPENAI_API_KEY]"
            "[ASR not configured")) = false := by decide
  constructor
  · simp only [voice_agent, voice_agent_trace, hasr]
  · simp only [voice_agent, voice_agent_trace, hasr, hcond]
    simp

/-- Concrete configuration with no provider credentials, used by witnesses. -/
def cfgNoKeys : Config :=
  ⟨"", "gpt-4o-mini", "", "Bella", fun _ => none⟩

/-- Witness for C1: a concrete request against `cfgNoKeys`. -/
theorem C1_asr_missing_credentials_witness :
    cfgNoKeys.OPENAI_API_KEY = ""
    ∧ (voice_agent cfgNoKeys (some "en") (.ok "hello") (.ok "reply")
        (.response 200 [[1]]) .ok "beef").transcript
      = "[ASR not configured - set OPENAI_API_KEY]"
    ∧ (voice_agent cfgNoKeys (some "en") (.ok "hello") (.ok "reply")
        (.response 200 [[1]]) .ok "beef").response_text
      = "[LLM unavailable due to ASR error or missing config]" :=
  ⟨rfl, (C1_asr_missing_credentials cfgNoKeys (some "en") (.ok "hello")
      (.ok "reply") (.response 200 [[1]]) .ok "beef" rfl).1,
    (C1_asr_missing_credentials cfgNoKeys (some "en") (.ok "hello")
      (.ok "reply") (.response 200 [[1]]) .ok "beef" rfl).2⟩

/-! ## Claim C7 -/

/-- Claim C7: if the TTS adapter returns failure — in particular whenever
TTS credentials are absent, in which case it returns false without
attempting network I/O — then `tts_audio_url` is null; if it returns
success, `tts_audio_url` is `/static/` followed by the generated output
filename. -/
theorem C7_tts_url (cfg : Config) (language : Option String)
    (asrNet llmNet : ProviderOutcome) (ttsNet : TTSNet) (wr : WriteBehavior)
    (uuidHex : String) :
    ((voice_agent_trace cfg language asrNet llmNet ttsNet wr uuidHex).tts.ok
        = false →
      (voice_agent cfg language asrNet llmNet ttsNet wr uuidHex).tts_audio_url
        = none)
    ∧ ((voice_agent_trace cfg language asrNet llmNet ttsNet wr uuidHex).tts.ok
        = true →
      (voice_agent cfg language asrNet llmNet ttsNet wr uuidHex).tts_audio_url
        = some ("/static/" ++ out_filename uuidHex))
    ∧ (cfg.ELEVENLABS_API_KEY = "" →
      (voice_agent_trace cfg language asrNet llmNet ttsNet wr uuidHex).tts.ok
        = false
      ∧ (voice_agent_trace cfg language asrNet llmNet ttsNet wr
          uuidHex).tts.attemptedNet = false) := by
  refine ⟨fun h => ?_, fun h => ?_, fun h => ?_⟩
  · simp only [voice_agent, voice_agent_trace] at h ⊢
    rw [h]
    simp
  · simp only [voice_agent, voice_agent_trace] at h ⊢
    rw [h]
    simp
  · simp only [voice_agent_trace]
    unfold run_tts_elevenlabs
    rw [if_pos h]
    exact ⟨rfl, rfl⟩

/-- Concrete configuration with ASR/LLM and TTS credentials present. -/
def cfgAllKeys : Config :=
  ⟨"sk-test", "gpt-4o-mini", "el-test", "Bella", fun _ => none⟩

/-- Witness for C7: failure at `cfgNoKeys` (credentials absent, no network
attempt), success at `cfgAllKeys` with an HTTP-200 streamed response. -/
theorem C7_tts_url_witness :
    ((voice_agent_trace cfgNoKeys (some "en") (.ok "hi") (.ok "reply")
        (.response 200 [[1]]) .ok "beef").tts.ok = false
      ∧ (voice_agent_trace cfgNoKeys (some "en") (.ok "hi") (.ok "reply")
        (.response 200 [[1]]) .ok "beef").tts.attemptedNet = false)
    ∧ (voice_agent cfgNoKeys (some "en") (.ok "hi") (.ok "reply")
        (.response 200 [[1]]) .ok "beef").tts_audio_url = none
    ∧ (voice_agent cfgAllKeys (some "en") (.ok "hi") (.ok "reply")
        (.response 200 [[1]]) .ok "beef").tts_audio_url
      = some ("/static/" ++ out_filename "beef") :=
  ⟨(C7_tts_url cfgNoKeys (some "en") (.ok "hi") (.ok "reply")
      (.response 200 [[1]]) .ok "beef").2.2 rfl,
   (C7_tts_url cfgNoKeys (some "en") (.ok "hi") (.ok "reply")
      (.response 200 [[1]]) .ok "beef").1 (by decide),
   (C7_tts_url cfgAllKeys (some "en") (.ok "hi") (.ok "reply")
      (.response 200 [[1]]) .ok "beef").2.1 (by decide)⟩

/-! ## Claim C6 -/

/-- Claim C6: for every input and every provider behavior, the ASR and LLM
adapters return a (sentinel) string rather than raising — on provider
failure, the sentinel embeds the error message — and the TTS adapter returns
false on any failure (raised exception, non-200 status, or interrupted
write) and true only after writing the full streamed body on HTTP 200. -/
theorem C6_adapters_never_raise (cfg : Config)
    (language text voice e msg : String) (net : TTSNet) (wr : WriteBehavior)
    (status : Nat) (chunks : List (List Nat))
    (hkey : cfg.OPENAI_API_KEY ≠ "") :
    run_asr_local cfg language (.raise e) = "[ASR error: " ++ e ++ "]"
    ∧ run_llm_local cfg language (.raise e) = "[LLM error: " ++ e ++ "]"
    ∧ (run_tts_elevenlabs cfg text voice (.raise msg) wr).ok = false
    ∧ (status ≠ 200 →
        (run_tts_elevenlabs cfg text voice (.response status chunks) wr).ok
          = false)
    ∧ (∀ n emsg,
        (run_tts_elevenlabs cfg text voice (.response status chunks)
          (.failAfter n emsg)).ok = false)
    ∧ ((run_tts_elevenlabs cfg text voice net wr).ok = true →
        cfg.ELEVENLABS_API_KEY ≠ ""
        ∧ ∃ cs, net = .response 200 cs ∧ wr = .ok
          ∧ (run_tts_elevenlabs cfg text voice net wr).written
            = some ((cs.filter (fun c => c != [])).flatten)) := by
  refine ⟨?_, ?_, ?_, fun hs => ?_, fun n emsg => ?_, fun hok => ?_⟩
  · unfold run_asr_local
    rw [if_neg hkey]
  · unfold run_llm_local
    rw [if_neg hkey]
  · by_cases hel : cfg.ELEVENLABS_API_KEY = "" <;>
      simp [run_tts_elevenlabs, hel]
  · by_cases hel : cfg.ELEVENLABS_API_KEY = "" <;>
      cases wr <;> simp [run_tts_elevenlabs, hel, hs]
  · by_cases hel : cfg.ELEVENLABS_API_KEY = "" <;>
      by_cases hs : status = 200 <;>
      simp [run_tts_elevenlabs, hel, hs]
  · by_cases hel : cfg.ELEVENLABS_API_KEY = ""
    · rw [run_tts_elevenlabs.eq_def, if_pos hel] at hok
      exact Bool.noConfusion hok
    · refine ⟨hel, ?_⟩
      cases net with
      | raise m =>
        rw [run_tts_elevenlabs.eq_def, if_neg hel] at hok
        exact Bool.noConfusion hok
      | response st cs =>
        by_cases hst : st = 200
        · cases wr with
          | ok =>
            subst hst
            exact ⟨cs, rfl, rfl, by simp [run_tts_elevenlabs, hel]⟩
          | failAfter n emsg =>
            rw [run_tts_elevenlabs.eq_def, if_neg hel] at hok
            simp [hst] at hok
        · rw [run_tts_elevenlabs.eq_def, if_neg hel] at hok
          simp [hst] at hok

/-- Witness for C6: concrete adapter calls against `cfgAllKeys`. -/
theorem C6_adapters_never_raise_witness :
    run_asr_local cfgAllKeys "en" (.raise "boom")
      = "[ASR error: " ++ "boom" ++ "]"
    ∧ run_llm_local cfgAllKeys "en" (.raise "boom")
      = "[LLM error: " ++ "boom" ++ "]"
    ∧ (run_tts_elevenlabs cfgAllKeys "hi" "Bella" (.raise "down") .ok).ok
      = false
    ∧ ((run_tts_elevenlabs cfgAllKeys "hi" "Bella" (.response 500 [[1]])
        .ok).ok = false)
    ∧ ((run_tts_elevenlabs cfgAllKeys "hi" "Bella" (.response 500 [[1]])
        (.failAfter 0 "disk")).ok = false)
    ∧ ((run_tts_elevenlabs cfgAllKeys "hi" "Bella" (.response 500 [[1]])
        .ok).ok = true →
        cfgAllKeys.ELEVENLABS_API_KEY ≠ ""
        ∧ ∃ cs, (TTSNet.response 500 [[1]]) = .response 200 cs
          ∧ WriteBehavior.ok = .ok
          ∧ (run_tts_elevenlabs cfgAllKeys "hi" "Bella" (.response 500 [[1]])
              .ok).written = some ((cs.filter (fun c => c != [])).flatten)) := by
  have h := C6_adapters_never_raise cfgAllKeys "en" "hi" "Bella" "boom" "down"
    (.response 500 [[1]]) .ok 500 [[1]] (by decide)
  exact ⟨h.1, h.2.1, h.2.2.1, h.2.2.2.1 (by decide),
    h.2.2.2.2.1 0 "disk", h.2.2.2.2.2⟩

/-! ## Claim C8 -/

/-- Claim C8 counterexample: the contact operation is not the only one
that can yield a non-200 response — the temp-file write at `main.py` lines
129-130 is outside any `try`, so a host-filesystem failure while persisting
the uploaded audio escapes the `/voice-agent` handler and the framework
answers 500. -/
theorem C8_counterexample :
    voice_agent_endpoint_status
      (voice_agent_endpoint (.fail "No space left on device") cfgAllKeys
        (some "en") (.ok "hi") (.ok "reply") (.response 200 [[1]]) .ok
        "beef") = 500
    ∧ (500 : Nat) ≠ 200 :=
  ⟨rfl, by decide⟩

/-- Claim C8 (amended: the voice-agent endpoint has an uncaught error path
too): if reading, parsing, or rewriting the persisted contact file fails in
`submit_contact`, the caller gets HTTP 500 whose detail is the underlying
failure message; on success it gets a 200 response with status `"ok"`;
`/contact` responds non-200 exactly when the submission failed; and apart
from a host-filesystem failure while persisting the uploaded audio to the
temporary file (through which `/voice-agent` also yields a 500), the
contact operation is the only non-200 one: whenever the temp-file
persistence succeeds, `/voice-agent` responds 200. -/
theorem C8_contact_error_surface (fs : StoreFS) (file : FileContent)
    (entry : Contact) (tmpfs : TmpFS) (cfg : Config)
    (language : Option String) (asrNet llmNet : ProviderOutcome)
    (ttsNet : TTSNet) (wr : WriteBehavior) (uuidHex : String) :
    (∀ msg, fs = .openFail msg →
      (contact_submit fs file entry).2 = .err500 msg)
    ∧ (∀ msg, file = .corrupt msg → fs = .ok →
      (contact_submit fs file entry).2 = .err500 msg)
    ∧ (∀ msg wmsg left, file = .corrupt msg → fs = .writeFail wmsg left →
      (contact_submit fs file entry).2 = .err500 msg)
    ∧ (∀ wmsg left l, fs = .writeFail wmsg left → file = .parsed l →
      (contact_submit fs file entry).2 = .err500 wmsg)
    ∧ (∀ l, fs = .ok → file = .parsed l →
      (contact_submit fs file entry).2 = .ok200 "ok" "Submission received")
    ∧ (contact_http_status (contact_submit fs file entry).2 = 200
        ↔ (contact_submit fs file entry).2
          = .ok200 "ok" "Submission received")
    ∧ (tmpfs = .ok →
        voice_agent_endpoint_status
          (voice_agent_endpoint tmpfs cfg language asrNet llmNet ttsNet wr
            uuidHex) = 200)
    ∧ (∀ msg, tmpfs = .fail msg →
        voice_agent_endpoint_status
          (voice_agent_endpoint tmpfs cfg language asrNet llmNet ttsNet wr
            uuidHex) = 500) := by
  cases fs <;> cases file <;> cases tmpfs <;>
    simp [contact_submit, contact_http_status, voice_agent_endpoint,
      voice_agent_endpoint_status]

/-- Contact record used by store witnesses. -/
def anaContact : Contact := ⟨"Ana", "a@x.com", none, none⟩

/-- Witness for C8: a failed open, a corrupt parse, a failed rewrite, a
successful submission, and a voice-agent request with the upload persisted
(status 200) and with the upload write failing (status 500), all
concrete. -/
theorem C8_contact_error_surface_witness :
    (contact_submit (.openFail "disk full") (.parsed []) anaContact).2
      = .err500 "disk full"
    ∧ (contact_submit .ok (.corrupt "Expecting value") anaContact).2
      = .err500 "Expecting value"
    ∧ (contact_submit (.writeFail "no space" (.corrupt "garbled"))
        (.parsed []) anaContact).2 = .err500 "no space"
    ∧ (contact_submit .ok (.parsed []) anaContact).2
      = .ok200 "ok" "Submission received"
    ∧ voice_agent_endpoint_status
        (voice_agent_endpoint .ok cfgAllKeys (some "en") (.ok "hi")
          (.ok "reply") (.response 200 [[1]]) .ok "beef") = 200
    ∧ voice_agent_endpoint_status
        (voice_agent_endpoint (.fail "disk full") cfgAllKeys (some "en")
          (.ok "hi") (.ok "reply") (.response 200 [[1]]) .ok "beef") = 500 :=
  ⟨(C8_contact_error_surface (.openFail "disk full") (.parsed [])
      anaContact .ok cfgAllKeys (some "en") (.ok "hi") (.ok "reply")
      (.response 200 [[1]]) .ok "beef").1 "disk full" rfl,
   (C8_contact_error_surface .ok (.corrupt "Expecting value")
      anaContact .ok cfgAllKeys (some "en") (.ok "hi") (.ok "reply")
      (.response 200 [[1]]) .ok "beef").2.1 "Expecting value" rfl rfl,
   (C8_contact_error_surface (.writeFail "no space" (.corrupt "garbled"))
      (.parsed []) anaContact .ok cfgAllKeys (some "en") (.ok "hi")
      (.ok "reply") (.response 200 [[1]]) .ok "beef").2.2.2.1 "no space"
      (.corrupt "garbled") [] rfl rfl,
   (C8_contact_error_surface .ok (.parsed []) anaContact .ok cfgAllKeys
      (some "en") (.ok "hi") (.ok "reply") (.response 200 [[1]]) .ok
      "beef").2.2.2.2.1 [] rfl rfl,
   (C8_contact_error_surface .ok (.parsed []) anaContact .ok cfgAllKeys
      (some "en") (.ok "hi") (.ok "reply") (.response 200 [[1]]) .ok
      "beef").2.2.2.2.2.2.1 rfl,
   (C8_contact_error_surface .ok (.parsed []) anaContact
      (.fail "disk full") cfgAllKeys (some "en") (.ok "hi") (.ok "reply")
      (.response 200 [[1]]) .ok "beef").2.2.2.2.2.2.2 "disk full" rfl⟩

/-! ## Claim C10 -/

/-- Claim C10: if reading or parsing the persisted contact file fails in
`submit_contact`, nothing is written — the stored content is exactly the
input content when the 500 error is returned. -/
theorem C10_no_write_on_read_failure (fs : StoreFS) (file : FileContent)
    (entry : Contact) :
    (∀ msg, fs = .openFail msg →
      (contact_submit fs file entry).1 = file
      ∧ ∃ d, (contact_submit fs file entry).2 = .err500 d)
    ∧ (∀ msg, file = .corrupt msg →
      (contact_submit fs file entry).1 = file
      ∧ ∃ d, (contact_submit fs file entry).2 = .err500 d) := by
  cases fs <;> cases file <;> simp [contact_submit]

/-- Witness for C10: a failed open and a corrupt file, both concrete. -/
theorem C10_no_write_on_read_failure_witness :
    ((contact_submit (.openFail "disk full") (.corrupt "bad json")
        anaContact).1 = .corrupt "bad json"
      ∧ ∃ d, (contact_submit (.openFail "disk full") (.corrupt "bad json")
        anaContact).2 = .err500 d)
    ∧ ((contact_submit .ok (.corrupt "bad json") anaContact).1
        = .corrupt "bad json"
      ∧ ∃ d, (contact_submit .ok (.corrupt "bad json") anaContact).2
        = .err500 d) :=
  ⟨(C10_no_write_on_read_failure (.openFail "disk full")
      (.corrupt "bad json") anaContact).1 "disk full" rfl,
   (C10_no_write_on_read_failure .ok (.corrupt "bad json") anaContact).2
      "bad json" rfl⟩

/-! ## Claim C9 -/

theorem hasUpperStr_pyLower (s : String) : hasUpperStr (pyLower s) = false := by
  simp only [hasUpperStr, pyLower, List.any_map, List.any_eq_false,
    Function.comp]
  intro x _
  simp [char_toLower_not_upper]

theorem hasUpperStr_pySplitFirst (s : String) (h : hasUpperStr s = false) :
    hasUpperStr (pySplitFirst s) = false := by
  simp only [hasUpperStr, pySplitFirst, List.any_eq_false] at h ⊢
  intro x hx
  exact h x (List.takeWhile_subset _ hx)

/-- Looking up a key with no uppercase letter is unaffected by removing the
entries whose key has one. -/
theorem lookup_filter_upper (l : List (String × String)) (k : String)
    (hk : hasUpperStr k = false) :
    (l.filter (fun kv => !(hasUpperStr kv.1))).lookup k = l.lookup k := by
  induction l with
  | nil => rfl
  | cons kv tl ih =>
    obtain ⟨k1, v1⟩ := kv
    by_cases hu : hasUpperStr k1 = true
    · have hne : (k == k1) = false := by
        rw [beq_eq_false_iff_ne]
        intro he
        rw [← he] at hu
        rw [hk] at hu
        exact Bool.noConfusion hu
      simp only [List.filter_cons, hu, Bool.not_true, if_neg,
        Bool.false_eq_true, not_false_eq_true, List.lookup_cons, hne]
      exact ih
    · simp only [Bool.not_eq_true] at hu
      simp only [List.filter_cons, hu, Bool.not_false, if_pos,
        List.lookup_cons]
      cases hkk : k == k1 with
      | true => rfl
      | false => exact ih

/-- Voice selection on a tag with no uppercase letter ignores the map
entries whose key has one. -/
theorem choose_voice_filter_upper (l : List (String × String))
    (dflt lang : String) (hlang : hasUpperStr lang = false) :
    choose_voice_for_language
        (fun s => (l.filter (fun kv => !(hasUpperStr kv.1))).lookup s)
        dflt lang
      = choose_voice_for_language (fun s => l.lookup s) dflt lang := by
  unfold choose_voice_for_language
  simp only [lookup_filter_upper l lang hlang,
    lookup_filter_upper l (pySplitFirst lang)
      (hasUpperStr_pySplitFirst lang hlang)]

/-- Claim C9: `handle_voice_request` performs the voice lookup with the
lowercased language tag, while the Voice Map Loader stores each key with the
exact case of the environment-variable suffix after `VOICE_`; consequently
entries whose key contains an uppercase letter are never selected — the
chosen voice is unchanged when all such entries are removed, so it comes
from a lowercase-keyed entry or is the default voice. -/
theorem C9_uppercase_keys_never_selected (cfg : Config)
    (env : List (String × String)) (language : Option String)
    (asrNet llmNet : ProviderOutcome) (ttsNet : TTSNet) (wr : WriteBehavior)
    (uuidHex : String) :
    (voice_agent_trace { cfg with voiceMap := voiceMapOf env } language
        asrNet llmNet ttsNet wr uuidHex).chosen_voice
      = (voice_agent_trace
          { cfg with voiceMap := fun s =>
              ((_load_voice_map env).filter
                (fun kv => !(hasUpperStr kv.1))).lookup s } language
          asrNet llmNet ttsNet wr uuidHex).chosen_voice
    ∧ (∀ lang v, ("VOICE_" ++ lang, v) ∈ env → v ≠ "" →
        (lang, v) ∈ _load_voice_map env) := by
  constructor
  · simp only [voice_agent_trace, voiceMapOf]
    exact (choose_voice_filter_upper (_load_voice_map env)
      cfg.ELEVENLABS_VOICE_DEFAULT (normalized_lang language)
      (hasUpperStr_pyLower _)).symm
  · intro lang v hmem hv
    rw [_load_voice_map, List.mem_filterMap]
    refine ⟨("VOICE_" ++ lang, v), hmem, ?_⟩
    have hpre : pyStartsWith ("VOICE_" ++ lang) "VOICE_" = true := by
      simp only [pyStartsWith, String.data_append, List.isPrefixOf_iff_prefix]
      exact List.prefix_append _ _
    have hbne : (v != "") = true := bne_iff_ne.mpr hv
    rw [hpre, hbne]
    simp only [Bool.and_self, if_pos]
    have hdrop : ("VOICE_" ++ lang).data.drop 6 = lang.data := by
      rw [String.data_append]
      exact List.drop_left' (by decide)
    rw [hdrop]

/-- Environment for the C9 witness: an uppercase-keyed entry `VOICE_EN` and
a lowercase-keyed entry `VOICE_en`. -/
def c9Env : List (String × String) :=
  [("VOICE_EN", "VoiceUp"), ("VOICE_en", "VoiceLow")]

/-- Witness for C9 at a concrete environment and request. -/
theorem C9_uppercase_keys_never_selected_witness :
    (voice_agent_trace { cfgAllKeys with voiceMap := voiceMapOf c9Env }
        (some "EN") (.ok "hi") (.ok "reply") (.response 200 [[1]]) .ok
        "beef").chosen_voice
      = (voice_agent_trace
          { cfgAllKeys with voiceMap := fun s =>
              ((_load_voice_map c9Env).filter
                (fun kv => !(hasUpperStr kv.1))).lookup s }
          (some "EN") (.ok "hi") (.ok "reply") (.response 200 [[1]]) .ok
          "beef").chosen_voice
    ∧ (("VOICE_" ++ "EN", "VoiceUp") ∈ c9Env
      ∧ ("VoiceUp" : String) ≠ ""
      ∧ ("EN", "VoiceUp") ∈ _load_voice_map c9Env) :=
  ⟨(C9_uppercase_keys_never_selected cfgAllKeys c9Env (some "EN")
      (.ok "hi") (.ok "reply") (.response 200 [[1]]) .ok "beef").1,
   by decide, by decide,
   (C9_uppercase_keys_never_selected cfgAllKeys c9Env (some "EN")
      (.ok "hi") (.ok "reply") (.response 200 [[1]]) .ok "beef").2
     "EN" "VoiceUp" (by decide) (by decide)⟩
